import Mathlib

/-
Verification of the Galera cluster-recovery orchestrator of mariadb-operator
(package `galera`: `reconcileRecovery`, `recoverCluster`, `getGaleraState`,
`recoverGaleraState`, `restartPods`, `bootstrap`, `resetRecovery`,
`patchRecoveryStatus`).

Shallow embedding conventions:
  - Kubernetes / HTTP / SQL collaborator calls are modelled by their
    outcomes, supplied through an environment record (`RecoverEnv`); each
    bounded poll (`wait.PollUntilSucessWithTimeout`) is collapsed to the
    final outcome of the polled operation (success, or failure after the
    poll deadline).
  - The per-pod goroutine fan-out of `getGaleraState` / `recoverGaleraState`
    (an `errgroup.Group`) is serialized in task-spawn order.  `errgroup.Wait`
    returns the first non-nil error among the tasks; in the serialized
    embedding this is the first failing task in list order.  No ordering
    between sibling tasks is relied upon by any theorem except that all
    tasks run to completion (which `errgroup` guarantees: no cancellation
    is wired into the group).
  - Go maps under pod-name keys are modelled as association lists; the nil
    map (the Go zero value) is the empty list.  Entries are only ever added
    by `setState` / `setRecovered`, matching the source.
  - Machine integers (`int64` seqnos, durations) are modelled as `Int`.
  - Side effects visible to collaborators are recorded in a trace of
    `RecAction` values, in execution order.
-/

namespace Galera

/-- Galera node state returned by a pod agent (spec NodeState):
cluster UUID, sequence number (-1 = unknown) and the safe_to_bootstrap flag. -/
structure GaleraState where
  uuid : String
  seqno : Int
  safeToBootstrap : Bool
deriving DecidableEq, Repr, Inhabited

/-- Recovered bootstrap information produced by the recovery-mode driver
(spec RecoveredBootstrap): the certified sequence number. -/
structure Bootstrap where
  seqno : Int
deriving DecidableEq, Repr, Inhabited

/-- Persisted bootstrap attempt (Go GaleraBootstrapStatus: Pod *string,
Time *metav1.Time).  Time is modelled as an integer timestamp. -/
structure GaleraBootstrapStatus where
  pod : Option String
  time : Option Int
deriving DecidableEq, Repr, Inhabited

/-- Persisted recovery record (Go GaleraRecoveryStatus): the four fields
`state`, `recovered`, `bootstrap`, `podsRestarted`.  Zero value: empty maps,
nil bootstrap, false flag. -/
structure GaleraRecoveryStatus where
  state : List (String × GaleraState)
  recovered : List (String × Bootstrap)
  bootstrap : Option GaleraBootstrapStatus
  podsRestarted : Bool
deriving DecidableEq, Repr, Inhabited

/-- Association-list lookup under a pod-name key (Go map read). -/
def alookup {α : Type} (k : String) : List (String × α) → Option α
  | [] => none
  | e :: rest => if e.1 = k then some e.2 else alookup k rest

/-- Association-list insert-or-replace under a pod-name key (Go map write). -/
def aset {α : Type} (k : String) (v : α) : List (String × α) → List (String × α)
  | [] => [(k, v)]
  | e :: rest => if e.1 = k then (k, v) :: rest else e :: aset k v rest

theorem alookup_aset_self {α : Type} (k : String) (v : α) (l : List (String × α)) :
    alookup k (aset k v l) = some v := by
  induction l with
  | nil => simp [aset, alookup]
  | cons e rest ih =>
      by_cases h : e.1 = k
      · simp [aset, h, alookup]
      · simp [aset, h, alookup, ih]

theorem alookup_aset_ne {α : Type} (k k' : String) (v : α) (l : List (String × α))
    (hne : k ≠ k') : alookup k' (aset k v l) = alookup k' l := by
  induction l with
  | nil => simp [aset, alookup, hne]
  | cons e rest ih =>
      by_cases h : e.1 = k
      · simp [aset, h, alookup, hne, ih]
      · simp [aset, h, alookup, ih]

/-- Accessor `rs.state(pod)` of the recovery status. -/
def stateOf (rs : GaleraRecoveryStatus) (pod : String) : Option GaleraState :=
  alookup pod rs.state

/-- Accessor `rs.recovered(pod)` of the recovery status. -/
def recoveredOf (rs : GaleraRecoveryStatus) (pod : String) : Option Bootstrap :=
  alookup pod rs.recovered

/-- Mutator `rs.setState(pod, state)`. -/
def setState (rs : GaleraRecoveryStatus) (pod : String) (st : GaleraState) :
    GaleraRecoveryStatus :=
  { rs with state := aset pod st rs.state }

/-- Mutator `rs.setRecovered(pod, bootstrap)`. -/
def setRecovered (rs : GaleraRecoveryStatus) (pod : String) (b : Bootstrap) :
    GaleraRecoveryStatus :=
  { rs with recovered := aset pod b rs.recovered }

/-- Mutator `rs.setPodsRestarted(restarted)`. -/
def setPodsRestarted (rs : GaleraRecoveryStatus) (b : Bool) : GaleraRecoveryStatus :=
  { rs with podsRestarted := b }

/-- Modelled from the spec (the `recoveryStatus.setBootstrapping` method is not
among the provided sources): committing a source records
BootstrapAttempt(pod, startedAt = now) in the record. -/
def setBootstrapping (rs : GaleraRecoveryStatus) (pod : String) (now : Int) :
    GaleraRecoveryStatus :=
  { rs with bootstrap := some { pod := some pod, time := some now } }

/-- Modelled from the spec (the `recoveryStatus.isBootstrapping` accessor is not
among the provided sources): a bootstrap attempt is in progress exactly when the
`bootstrap` field is set. -/
def isBootstrapping (rs : GaleraRecoveryStatus) : Bool :=
  rs.bootstrap.isSome

/-- Mutator `rs.reset()`: clears the whole record to its zero value. -/
def resetStatus : GaleraRecoveryStatus := default

/-- Modelled from the spec (the `recoveryStatus.bootstrapTimeout` predicate is
not among the provided sources): a bootstrap attempt exists and its age
(now - startedAt) exceeds the configured bootstrap timeout. -/
def bootstrapTimeout (now timeout : Int) (rs : GaleraRecoveryStatus) : Bool :=
  match rs.bootstrap with
  | none => false
  | some b =>
    match b.time with
    | none => false
    | some t => decide (now - t > timeout)

/-- Decimal digit value of a character, `none` for non-digits. -/
def decDigit? (c : Char) : Option Nat :=
  if c.isDigit then some (c.toNat - 48) else none

/-- Parse a non-empty all-digit character list as a decimal number. -/
def parseNat? (cs : List Char) : Option Nat :=
  if cs = [] then none
  else cs.foldl (fun acc c => match acc, decDigit? c with
    | some n, some d => some (n * 10 + d)
    | _, _ => none) (some 0)

/-- Modelled from the spec (the `statefulset.PodIndex` helper is not among the
provided sources): the ordinal of a StatefulSet pod, parsed from the decimal
suffix after the last dash of its name (`none` models the error return). -/
def podIndex (name : String) : Option Nat :=
  parseNat? ((name.toList.reverse.takeWhile (fun c => c != '-')).reverse)

/-- Modelled from the spec (the `statefulset.PodName` helper is not among the
provided sources): StatefulSet pod `i` of cluster `base` is named `base-i`. -/
def podName (base : String) (i : Nat) : String := base ++ "-" ++ toString i

/-- Origin of a bootstrap source: the fast-path state map or the recovered map. -/
inductive SourceOrigin where
  | state
  | recovered
deriving DecidableEq, Repr

/-- Transient selector output (spec BootstrapSource): chosen pod, its certified
seqno, and which collection it came from. -/
structure BootstrapSource where
  pod : String
  seqno : Int
  origin : SourceOrigin
deriving DecidableEq, Repr

/-- Candidate `a` strictly precedes candidate `b`: higher seqno, or equal seqno
and strictly smaller pod name.  Pod names are compared lexicographically on
their character lists, matching byte-wise string comparison on ASCII names. -/
def betterCand (a b : String × Int) : Bool :=
  decide (b.2 < a.2) || (decide (a.2 = b.2) && decide (a.1.toList < b.1.toList))

/-- Pick the best candidate of a list under `betterCand` (highest seqno, ties
broken by smallest pod name); `none` only for the empty list. -/
def selectBest : List (String × Int) → Option (String × Int)
  | [] => none
  | c :: cs =>
    match selectBest cs with
    | none => some c
    | some d => if betterCand d c then some d else some c

/-- Candidates of the safe pass: pods whose recorded NodeState has
safeToBootstrap set, paired with their seqno. -/
def safeCands (states : List (String × GaleraState)) : List (String × Int) :=
  states.filterMap (fun e => if e.2.safeToBootstrap then some (e.1, e.2.seqno) else none)

/-- Candidates of the fallback pass: all pods of the recovered map, paired with
their recovered seqno. -/
def recCands (recovered : List (String × Bootstrap)) : List (String × Int) :=
  recovered.map (fun e => (e.1, e.2.seqno))

/-- Modelled from the spec (the `recoveryStatus.bootstrapSource` method is not
among the provided sources): among pods with a NodeState where
safeToBootstrap is true pick the highest seqno, ties broken by the smallest pod
name; if no such pod exists fall back to the recovered map with the same rule;
if neither collection yields a candidate return `none` (no source yet, not an
error). -/
def bootstrapSource (states : List (String × GaleraState))
    (recovered : List (String × Bootstrap)) : Option BootstrapSource :=
  match selectBest (safeCands states) with
  | some c => some { pod := c.1, seqno := c.2, origin := SourceOrigin.state }
  | none =>
    match selectBest (recCands recovered) with
    | some c => some { pod := c.1, seqno := c.2, origin := SourceOrigin.recovered }
    | none => none

/-- Optimality of a candidate within a candidate list: it is a member, and
every member either has a strictly smaller seqno or has the same seqno and a
name no smaller. -/
def optimalCand (cands : List (String × Int)) (c : String × Int) : Prop :=
  c ∈ cands ∧ ∀ d ∈ cands, d.2 < c.2 ∨ (d.2 = c.2 ∧ c.1.toList ≤ d.1.toList)

theorem selectBest_eq_none {l : List (String × Int)} :
    selectBest l = none ↔ l = [] := by
  cases l with
  | nil => simp [selectBest]
  | cons c cs =>
      simp only [selectBest]
      cases selectBest cs with
      | none => simp
      | some d => cases h : betterCand d c <;> simp [h]

theorem selectBest_optimal :
    ∀ (l : List (String × Int)) (c : String × Int),
    selectBest l = some c → optimalCand l c := by
  intro l
  induction l with
  | nil => intro c h; simp [selectBest] at h
  | cons a cs ih =>
      intro c h
      simp only [selectBest] at h
      cases hcs : selectBest cs with
      | none =>
          rw [hcs] at h
          cases h
          have hnil : cs = [] := selectBest_eq_none.1 hcs
          subst hnil
          refine ⟨List.mem_singleton_self a, ?_⟩
          intro d hd
          rw [List.mem_singleton] at hd
          subst hd
          exact Or.inr ⟨rfl, le_refl _⟩
      | some d =>
          rw [hcs] at h
          dsimp only at h
          have hopt := ih d hcs
          by_cases hb : betterCand d a
          · rw [if_pos hb] at h
            cases h
            refine ⟨List.mem_cons_of_mem _ hopt.1, ?_⟩
            intro e he
            rcases List.mem_cons.1 he with he | he
            · subst he
              simp only [betterCand, Bool.or_eq_true, Bool.and_eq_true,
                decide_eq_true_eq] at hb
              rcases hb with hb | ⟨hb1, hb2⟩
              · exact Or.inl hb
              · exact Or.inr ⟨hb1.symm, le_of_lt hb2⟩
            · exact hopt.2 e he
          · rw [if_neg hb] at h
            cases h
            refine ⟨List.mem_cons_self _ _, ?_⟩
            intro e he
            simp only [betterCand, Bool.or_eq_true, Bool.and_eq_true,
              decide_eq_true_eq, not_or, not_and, not_lt] at hb
            obtain ⟨hb1, hb2⟩ := hb
            rcases List.mem_cons.1 he with he | he
            · subst he
              exact Or.inr ⟨rfl, le_refl _⟩
            · rcases hopt.2 e he with hlt | ⟨heq, hle⟩
              · rcases lt_or_eq_of_le hb1 with hda | hda
                · exact Or.inl (lt_trans hlt hda)
                · exact Or.inl (hda ▸ hlt)
              · rcases lt_or_eq_of_le hb1 with hda | hda
                · exact Or.inl (heq ▸ hda)
                · exact Or.inr ⟨heq.trans hda, le_trans (hb2 hda) hle⟩

/-- Example states of the tie-break test of the spec: two safe pods with equal
seqno 10; the selector must return the one with the smallest name. -/
def exStatesTie : List (String × GaleraState) :=
  [("mariadb-0", { uuid := "u1", seqno := 10, safeToBootstrap := true }),
   ("mariadb-2", { uuid := "u1", seqno := 10, safeToBootstrap := true })]

/-- C1: for every pair of `states` and `recovered` maps the selector returns,
among pods whose NodeState has safeToBootstrap true, the pod with the highest
seqno (ties broken by the smallest pod name); if no such pod exists, the pod
with the highest recovered seqno (same tie-break); and if neither collection
yields a candidate, `none` (a value of the option type, not an error). -/
theorem bootstrapSource_selects_optimal (states : List (String × GaleraState))
    (recovered : List (String × Bootstrap)) :
    (∀ src, bootstrapSource states recovered = some src →
      (src.origin = SourceOrigin.state →
        optimalCand (safeCands states) (src.pod, src.seqno)) ∧
      (src.origin = SourceOrigin.recovered →
        safeCands states = [] ∧ optimalCand (recCands recovered) (src.pod, src.seqno))) ∧
    (bootstrapSource states recovered = none ↔
      safeCands states = [] ∧ recCands recovered = []) := by
  unfold bootstrapSource
  cases hsafe : selectBest (safeCands states) with
  | some c =>
      refine ⟨?_, ?_⟩
      · intro src h
        simp only [Option.some.injEq] at h
        subst h
        refine ⟨fun _ => selectBest_optimal _ _ hsafe, fun h2 => ?_⟩
        simp at h2
      · constructor
        · intro h; simp at h
        · rintro ⟨h1, _⟩
          rw [h1] at hsafe
          simp [selectBest] at hsafe
  | none =>
      have h1 : safeCands states = [] := selectBest_eq_none.1 hsafe
      cases hrec : selectBest (recCands recovered) with
      | some c =>
          refine ⟨?_, ?_⟩
          · intro src h
            simp only [Option.some.injEq] at h
            subst h
            refine ⟨fun h2 => ?_, fun _ => ⟨h1, selectBest_optimal _ _ hrec⟩⟩
            simp at h2
          · constructor
            · intro h; simp at h
            · rintro ⟨_, h2⟩
              rw [h2] at hrec
              simp [selectBest] at hrec
      | none =>
          refine ⟨?_, ?_⟩
          · intro src h; simp at h
          · simp [h1, selectBest_eq_none.1 hrec]

/-- Witness for C1 at the tie-break example of the spec: the selector returns
pod mariadb-0 and that pod is optimal among the safe candidates. -/
theorem bootstrapSource_selects_optimal_witness :
    bootstrapSource exStatesTie [] =
      some { pod := "mariadb-0", seqno := 10, origin := SourceOrigin.state } ∧
    optimalCand (safeCands exStatesTie) ("mariadb-0", 10) := by
  refine ⟨by decide, ?_⟩
  exact ((bootstrapSource_selects_optimal exStatesTie []).1
    { pod := "mariadb-0", seqno := 10, origin := SourceOrigin.state } (by decide)).1 rfl

/-- Observable collaborator effects of the orchestrator, in execution order:
agent state query, recovery-mode run, bootstrap-enable call, pod delete,
sync wait, and status patch (carrying the persisted representation). -/
inductive RecAction where
  | getState (pod : String)
  | recoverPod (pod : String)
  | enableBootstrap (pod : String)
  | deletePod (pod : String)
  | waitSync (pod : String)
  | patchStatus (persisted : Option GaleraRecoveryStatus)
deriving DecidableEq, Repr

/-- Embedding of `GaleraReconciler.getGaleraState`: for each pod not already in
`rs.state` the spawned task resolves the pod index and agent client and polls
the agent for the Galera state, recording the result via `rs.setState`; pods
already present are skipped with no query.  `fetch` collapses each task
(index lookup + client lookup + bounded poll) to its outcome, the error value
being the formatted task error.  The `errgroup.Wait` result is the first
failing task's error (`none` when all succeed); sibling tasks are never
cancelled, so every task runs and successful results are recorded even when
another task fails. -/
def getGaleraState (fetch : String → Except String GaleraState) :
    List String → GaleraRecoveryStatus →
    List RecAction × Option String × GaleraRecoveryStatus
  | [], rs => ([], none, rs)
  | p :: ps, rs =>
    if (stateOf rs p).isSome then
      getGaleraState fetch ps rs
    else
      match fetch p with
      | Except.ok st =>
        let r := getGaleraState fetch ps (setState rs p st)
        (RecAction.getState p :: r.1, r.2.1, r.2.2)
      | Except.error e =>
        let r := getGaleraState fetch ps rs
        (RecAction.getState p :: r.1, some e, r.2.2)

theorem getGaleraState_preserves (fetch : String → Except String GaleraState)
    (pods : List String) (rs : GaleraRecoveryStatus) (p : String)
    (hp : (stateOf rs p).isSome) :
    stateOf (getGaleraState fetch pods rs).2.2 p = stateOf rs p := by
  induction pods generalizing rs with
  | nil => simp [getGaleraState]
  | cons q qs ih =>
      by_cases hq : (stateOf rs q).isSome
      · simp only [getGaleraState, if_pos hq]
        exact ih rs hp
      · have hqp : q ≠ p := by
          intro h
          rw [h] at hq
          exact hq hp
        simp only [getGaleraState, if_neg hq]
        cases hf : fetch q with
        | ok st =>
            have hpres : stateOf (setState rs q st) p = stateOf rs p :=
              alookup_aset_ne q p st rs.state hqp
            have hp2 : (stateOf (setState rs q st) p).isSome := by
              rw [hpres]; exact hp
            simpa [hpres] using ih (setState rs q st) hp2
        | error e => simpa using ih rs hp

theorem getGaleraState_not_queried (fetch : String → Except String GaleraState)
    (pods : List String) (rs : GaleraRecoveryStatus) (p : String)
    (hp : (stateOf rs p).isSome) :
    RecAction.getState p ∉ (getGaleraState fetch pods rs).1 := by
  induction pods generalizing rs with
  | nil => simp [getGaleraState]
  | cons q qs ih =>
      by_cases hq : (stateOf rs q).isSome
      · simp only [getGaleraState, if_pos hq]
        exact ih rs hp
      · have hqp : q ≠ p := by
          intro h
          rw [h] at hq
          exact hq hp
        simp only [getGaleraState, if_neg hq]
        cases hf : fetch q with
        | ok st =>
            have hpres : stateOf (setState rs q st) p = stateOf rs p :=
              alookup_aset_ne q p st rs.state hqp
            have hp2 : (stateOf (setState rs q st) p).isSome := by
              rw [hpres]; exact hp
            simp only [List.mem_cons, not_or]
            refine ⟨?_, ih (setState rs q st) hp2⟩
            simp only [ne_eq, RecAction.getState.injEq]
            exact fun h => hqp h.symm
        | error e =>
            simp only [List.mem_cons, not_or]
            refine ⟨?_, ih rs hp⟩
            simp only [ne_eq, RecAction.getState.injEq]
            exact fun h => hqp h.symm

theorem getGaleraState_records_success (fetch : String → Except String GaleraState)
    (pods : List String) (rs : GaleraRecoveryStatus) (p : String) (st : GaleraState)
    (hmem : p ∈ pods) (hnew : stateOf rs p = none) (hfetch : fetch p = Except.ok st) :
    stateOf (getGaleraState fetch pods rs).2.2 p = some st := by
  induction pods generalizing rs with
  | nil => simp at hmem
  | cons q qs ih =>
      by_cases hpq : q = p
      · subst hpq
        have hq : ¬ (stateOf rs q).isSome := by simp [hnew]
        simp only [getGaleraState, if_neg hq, hfetch]
        have hset : stateOf (setState rs q st) q = some st :=
          alookup_aset_self q st rs.state
        have := getGaleraState_preserves fetch qs (setState rs q st) q (by simp [hset])
        simpa [hset] using this
      · rcases List.mem_cons.1 hmem with h | h
        · exact absurd h.symm hpq
        · by_cases hq : (stateOf rs q).isSome
          · simp only [getGaleraState, if_pos hq]
            exact ih rs h hnew
          · simp only [getGaleraState, if_neg hq]
            cases hf : fetch q with
            | ok st2 =>
                have hpres : stateOf (setState rs q st2) p = stateOf rs p :=
                  alookup_aset_ne q p st2 rs.state hpq
                simpa using ih (setState rs q st2) h (by rw [hpres]; exact hnew)
            | error e => simpa using ih rs h hnew

theorem getGaleraState_all_queried (fetch : String → Except String GaleraState)
    (pods : List String) (rs : GaleraRecoveryStatus) (p : String)
    (hmem : p ∈ pods) (hnew : stateOf rs p = none) :
    RecAction.getState p ∈ (getGaleraState fetch pods rs).1 := by
  induction pods generalizing rs with
  | nil => simp at hmem
  | cons q qs ih =>
      by_cases hpq : q = p
      · subst hpq
        have hq : ¬ (stateOf rs q).isSome := by simp [hnew]
        simp only [getGaleraState, if_neg hq]
        cases fetch q <;> simp
      · rcases List.mem_cons.1 hmem with h | h
        · exact absurd h.symm hpq
        · by_cases hq : (stateOf rs q).isSome
          · simp only [getGaleraState, if_pos hq]
            exact ih rs h hnew
          · simp only [getGaleraState, if_neg hq]
            cases hf : fetch q with
            | ok st2 =>
                have hpres : stateOf (setState rs q st2) p = stateOf rs p :=
                  alookup_aset_ne q p st2 rs.state hpq
                simp only [List.mem_cons]
                exact Or.inr (ih (setState rs q st2) h (by rw [hpres]; exact hnew))
            | error e =>
                simp only [List.mem_cons]
                exact Or.inr (ih rs h hnew)

theorem getGaleraState_err_of_fail (fetch : String → Except String GaleraState)
    (pods : List String) (rs : GaleraRecoveryStatus) (q : String) (e : String)
    (hmem : q ∈ pods) (hnew : stateOf rs q = none) (hfetch : fetch q = Except.error e) :
    (getGaleraState fetch pods rs).2.1.isSome := by
  induction pods generalizing rs with
  | nil => simp at hmem
  | cons p ps ih =>
      by_cases hpq : p = q
      · subst hpq
        have hp : ¬ (stateOf rs p).isSome := by simp [hnew]
        simp only [getGaleraState, if_neg hp, hfetch]
        simp
      · rcases List.mem_cons.1 hmem with h | h
        · exact absurd h.symm hpq
        · by_cases hp : (stateOf rs p).isSome
          · simp only [getGaleraState, if_pos hp]
            exact ih rs h hnew
          · simp only [getGaleraState, if_neg hp]
            cases hf : fetch p with
            | ok st =>
                have hpres : stateOf (setState rs p st) q = stateOf rs q :=
                  alookup_aset_ne p q st rs.state hpq
                simpa using ih (setState rs p st) h (by rw [hpres]; exact hnew)
            | error e2 => simp

/-- A message identifies a pod when the pod name occurs in it as a substring. -/
def mentionsPod (msg pod : String) : Prop := pod.toList <:+: msg.toList

instance (msg pod : String) : Decidable (mentionsPod msg pod) := by
  unfold mentionsPod
  infer_instance

/-- Example fetch outcome where every pod's state-collection task fails with an
error naming that pod. -/
def exFetchAllFail : String → Except String GaleraState := fun p =>
  Except.error ("error getting Galera state for Pod " ++ p ++ ": connection refused")

/-- Example fetch outcome where pod mariadb-1 fails and every other pod
succeeds with a non-safe state. -/
def exFetchOneFail : String → Except String GaleraState := fun p =>
  if p = "mariadb-1" then
    Except.error "error getting Galera state for Pod mariadb-1: connection refused"
  else Except.ok { uuid := "u1", seqno := 5, safeToBootstrap := false }

/-- Example record that already memoizes a state for pod mariadb-0. -/
def exRsMemo : GaleraRecoveryStatus :=
  { state := [("mariadb-0", { uuid := "u0", seqno := 7, safeToBootstrap := false })],
    recovered := [], bootstrap := none, podsRestarted := false }

/-- C8: a pod already present in `states` is skipped entirely by the collector:
no task queries its agent (no getState action for it in the trace) and its
recorded NodeState is unchanged after the call. -/
theorem getGaleraState_skips_memoized (fetch : String → Except String GaleraState)
    (pods : List String) (rs : GaleraRecoveryStatus) (p : String)
    (hp : (stateOf rs p).isSome) :
    RecAction.getState p ∉ (getGaleraState fetch pods rs).1 ∧
    stateOf (getGaleraState fetch pods rs).2.2 p = stateOf rs p :=
  ⟨getGaleraState_not_queried fetch pods rs p hp,
   getGaleraState_preserves fetch pods rs p hp⟩

/-- Witness for C8: with mariadb-0 already memoized, a collection over pods
mariadb-0 and mariadb-1 never queries mariadb-0 and leaves its entry intact. -/
theorem getGaleraState_skips_memoized_witness :
    RecAction.getState "mariadb-0" ∉
      (getGaleraState exFetchOneFail ["mariadb-0", "mariadb-1"] exRsMemo).1 ∧
    stateOf (getGaleraState exFetchOneFail ["mariadb-0", "mariadb-1"] exRsMemo).2.2
        "mariadb-0" =
      stateOf exRsMemo "mariadb-0" :=
  getGaleraState_skips_memoized exFetchOneFail ["mariadb-0", "mariadb-1"] exRsMemo
    "mariadb-0" (by decide)

/-- Counterexample for C5: with the tasks of both mariadb-0 and mariadb-1
failing, the collector returns only the first failing task's error, which does
not identify pod mariadb-1 — not a combined multi-error naming every failing
pod. -/
theorem getGaleraState_drops_second_failure :
    (getGaleraState exFetchAllFail ["mariadb-0", "mariadb-1"] default).2.1 =
      some "error getting Galera state for Pod mariadb-0: connection refused" ∧
    ¬ mentionsPod "error getting Galera state for Pod mariadb-0: connection refused"
        "mariadb-1" := by
  constructor
  · decide
  · decide

/-- C5 amended: when one or more per-pod state-collection tasks fail, the
collector returns a (single) error — the first failing task's error under
`errgroup.Wait` semantics, not a multi-error naming every failing pod — and no
sibling task is cancelled: every pod not already memoized is still queried. -/
theorem getGaleraState_err_and_no_cancel (fetch : String → Except String GaleraState)
    (pods : List String) (rs : GaleraRecoveryStatus) (q : String) (e : String)
    (hmem : q ∈ pods) (hnew : stateOf rs q = none)
    (hfetch : fetch q = Except.error e) :
    (getGaleraState fetch pods rs).2.1.isSome ∧
    ∀ p ∈ pods, stateOf rs p = none →
      RecAction.getState p ∈ (getGaleraState fetch pods rs).1 :=
  ⟨getGaleraState_err_of_fail fetch pods rs q e hmem hnew hfetch,
   fun p hp hn => getGaleraState_all_queried fetch pods rs p hp hn⟩

/-- Witness for C5 amended: both tasks fail; the collector reports an error and
both pods were still queried. -/
theorem getGaleraState_err_and_no_cancel_witness :
    (getGaleraState exFetchAllFail ["mariadb-0", "mariadb-1"] default).2.1.isSome ∧
    RecAction.getState "mariadb-0" ∈
      (getGaleraState exFetchAllFail ["mariadb-0", "mariadb-1"] default).1 ∧
    RecAction.getState "mariadb-1" ∈
      (getGaleraState exFetchAllFail ["mariadb-0", "mariadb-1"] default).1 := by
  have h := getGaleraState_err_and_no_cancel exFetchAllFail ["mariadb-0", "mariadb-1"]
    default "mariadb-0"
    "error getting Galera state for Pod mariadb-0: connection refused"
    (by decide) (by decide) rfl
  exact ⟨h.1, h.2 "mariadb-0" (by decide) (by decide),
    h.2 "mariadb-1" (by decide) (by decide)⟩

/-- Embedding of the write of `patchRecoveryStatus`: the status field is set to
nil when `reflect.ValueOf(galeraRecoveryStatus).IsZero()` holds — the record
equals its zero value — and to the populated record otherwise. -/
def recoveryRepr (rs : GaleraRecoveryStatus) : Option GaleraRecoveryStatus :=
  if rs = default then none else some rs

/-- C9: every persist maintains the representation invariant: the status field
is written as nil exactly when all four fields of the record are at their zero
value (empty state map, empty recovered map, no bootstrap attempt, flag
false), and as the populated record otherwise. -/
theorem recoveryRepr_nil_iff_zero (rs : GaleraRecoveryStatus) :
    (recoveryRepr rs = none ↔
      rs.state = [] ∧ rs.recovered = [] ∧ rs.bootstrap = none ∧
        rs.podsRestarted = false) ∧
    (¬ (rs.state = [] ∧ rs.recovered = [] ∧ rs.bootstrap = none ∧
        rs.podsRestarted = false) → recoveryRepr rs = some rs) := by
  have hz : rs = default ↔
      rs.state = [] ∧ rs.recovered = [] ∧ rs.bootstrap = none ∧
        rs.podsRestarted = false := by
    constructor
    · intro h
      subst h
      exact ⟨rfl, rfl, rfl, rfl⟩
    · rintro ⟨h1, h2, h3, h4⟩
      cases rs
      simp only at h1 h2 h3 h4
      subst h1; subst h2; subst h3; subst h4
      rfl
  refine ⟨⟨fun hnone => ?_, fun hvals => ?_⟩, fun hne => ?_⟩
  · by_cases h : rs = default
    · exact hz.1 h
    · exfalso
      unfold recoveryRepr at hnone
      rw [if_neg h] at hnone
      exact Option.noConfusion hnone
  · unfold recoveryRepr
    rw [if_pos (hz.2 hvals)]
  · unfold recoveryRepr
    rw [if_neg (fun h => hne (hz.1 h))]

/-- Witness for C9 at two concrete records: a populated record is persisted as
itself and the zero record is persisted as nil. -/
theorem recoveryRepr_nil_iff_zero_witness :
    recoveryRepr exRsMemo = some exRsMemo ∧ recoveryRepr resetStatus = none := by
  refine ⟨?_, ?_⟩
  · exact (recoveryRepr_nil_iff_zero exRsMemo).2 (by decide)
  · exact (recoveryRepr_nil_iff_zero resetStatus).1.2 ⟨rfl, rfl, rfl, rfl⟩

/-- Embedding of `agentClientSet.clientForIndex`, modelled from the spec: one
agent client exists per replica ordinal, so an index outside the replica range
is an error. -/
def clientForIndex (replicas : Nat) (i : Nat) : Except String Unit :=
  if i < replicas then Except.ok () else Except.error "index out of bounds"

/-- Embedding of `GaleraReconciler.bootstrap` (the bootstrap executor): resolve
the source pod index and agent client, poll enable-bootstrap until success or
the deadline (`enable` collapses the poll to its outcome), and only then
record the attempt via `setBootstrapping`; any failure returns an error with
the record untouched.  The trace holds the agent calls made. -/
def bootstrapExec (replicas : Nat) (enable : String → Except String Unit)
    (now : Int) (src : String) (rs : GaleraRecoveryStatus) :
    List RecAction × Except String Unit × GaleraRecoveryStatus :=
  match podIndex src with
  | none => ([], Except.error ("error getting index for Pod " ++ src), rs)
  | some i =>
    match clientForIndex replicas i with
    | Except.error e =>
      ([], Except.error ("error getting client for Pod " ++ src ++ ": " ++ e), rs)
    | Except.ok _ =>
      match enable src with
      | Except.error e =>
        ([RecAction.enableBootstrap src],
         Except.error ("error enabling bootstrap in Pod " ++ src ++ ": " ++ e), rs)
      | Except.ok _ =>
        ([RecAction.enableBootstrap src], Except.ok (), setBootstrapping rs src now)

/-- C10: the bootstrap executor records the attempt only after the agent call
succeeded: on success the bootstrap field holds the attempt (pod, startedAt)
and the enable call is known to have succeeded; on any failure (index lookup,
client lookup, or the bounded poll) it returns an error and leaves the
bootstrap field unchanged. -/
theorem bootstrap_records_attempt_iff_enable_ok (replicas : Nat)
    (enable : String → Except String Unit) (now : Int) (src : String)
    (rs : GaleraRecoveryStatus) :
    (∀ e, (bootstrapExec replicas enable now src rs).2.1 = Except.error e →
      (bootstrapExec replicas enable now src rs).2.2.bootstrap = rs.bootstrap) ∧
    ((bootstrapExec replicas enable now src rs).2.1 = Except.ok () →
      (bootstrapExec replicas enable now src rs).2.2.bootstrap =
        some { pod := some src, time := some now } ∧
      enable src = Except.ok ()) := by
  unfold bootstrapExec
  cases hidx : podIndex src with
  | none => simp
  | some i =>
    dsimp only
    cases hcl : clientForIndex replicas i with
    | error e => simp
    | ok u =>
      dsimp only
      cases hen : enable src with
      | error e => simp
      | ok u2 =>
        cases u2
        simp [setBootstrapping]

/-- Witness for C10 at a concrete success and a concrete failure: with the
agent accepting the enable call the attempt is recorded; with a failing agent
the bootstrap field stays untouched. -/
theorem bootstrap_records_attempt_iff_enable_ok_witness :
    (bootstrapExec 3 (fun _ => Except.ok ()) 100 "mariadb-1" exRsMemo).2.2.bootstrap =
      some { pod := some "mariadb-1", time := some 100 } ∧
    (bootstrapExec 3 (fun _ => Except.error "timeout") 100 "mariadb-1"
        exRsMemo).2.2.bootstrap = exRsMemo.bootstrap := by
  constructor
  · exact ((bootstrap_records_attempt_iff_enable_ok 3 (fun _ => Except.ok ()) 100
      "mariadb-1" exRsMemo).2 rfl).1
  · exact (bootstrap_records_attempt_iff_enable_ok 3 (fun _ => Except.error "timeout")
      100 "mariadb-1" exRsMemo).1
      "error enabling bootstrap in Pod mariadb-1: timeout" rfl

/-- Slice of the MariaDB custom resource used by the recovery orchestrator:
object name (the StatefulSet base name), replica count, configured cluster
bootstrap timeout, and the recovery record persisted in the status. -/
structure MariaDB where
  name : String
  replicas : Nat
  clusterBootstrapTimeout : Int
  galeraRecovery : Option GaleraRecoveryStatus
deriving Repr

/-- Collaborator outcomes for one orchestrator invocation: the per-pod
state-fetch task outcome, the per-pod recovery-mode task outcome (enable,
start and disable collapsed to the certified seqno or the task error), the
bootstrap-enable poll outcome, the state re-query of the recorded bootstrap
pod at the start of the restart phase, the per-pod delete and sync poll
outcomes (`none` is success), whether status patches succeed, and the clock
read used for startedAt stamps. -/
structure RecoverEnv where
  fetch : String → Except String GaleraState
  recover : String → Except String Bootstrap
  enable : String → Except String Unit
  bootstrapPodState : Except String GaleraState
  del : String → Option String
  syn : String → Option String
  patchOk : Bool
  now : Int

/-- Embedding of `GaleraReconciler.recoverGaleraState` (recovery-mode driver):
for each pod not already in `rs.recovered`, run the recovery-mode task
(enable recovery, start recovery to extract the certified seqno, disable
recovery, each under its own bounded poll — collapsed to one outcome) and
record the result via `rs.setRecovered`; `errgroup.Wait` semantics as in
`getGaleraState`. -/
def recoverGaleraState (recover : String → Except String Bootstrap) :
    List String → GaleraRecoveryStatus →
    List RecAction × Option String × GaleraRecoveryStatus
  | [], rs => ([], none, rs)
  | p :: ps, rs =>
    if (recoveredOf rs p).isSome then
      recoverGaleraState recover ps rs
    else
      match recover p with
      | Except.ok b =>
        let r := recoverGaleraState recover ps (setRecovered rs p b)
        (RecAction.recoverPod p :: r.1, r.2.1, r.2.2)
      | Except.error e =>
        let r := recoverGaleraState recover ps rs
        (RecAction.recoverPod p :: r.1, some e, r.2.2)

/-- Combination of two optional errors, as `multierror.Append` of both followed
by `ErrorOrNil`: `none` when both are absent, else the joined messages. -/
def combineErr : Option String → Option String → Option String
  | none, none => none
  | some e, none => some e
  | none, some e => some e
  | some e1, some e2 => some (e1 ++ "; " ++ e2)

/-- Bootstrap pod recorded in the persisted status, as read at the top of
`restartPods`: `ptr.Deref` of the status record and of its bootstrap field,
then the Pod pointer. -/
def statusBootstrapPod (mdb : MariaDB) : Option String :=
  ((mdb.galeraRecovery.getD default).bootstrap.getD default).pod

/-- Ordered pod list built by `restartPods`: the bootstrap pod first, then the
pod of every replica ordinal except the bootstrap pod, in ascending ordinal
order. -/
def restartKeys (base : String) (replicas : Nat) (bp : String) : List String :=
  bp :: (List.range replicas).filterMap
    (fun i => if podName base i = bp then none else some (podName base i))

/-- Restart walk of `restartPods`: for each pod in order, poll until the pod is
deleted, then poll until it reports synchronized, before the next pod is
touched; the first failure aborts the walk with that pod's error. -/
def restartLoop (del syn : String → Option String) :
    List String → List RecAction × Option String
  | [] => ([], none)
  | k :: ks =>
    match del k with
    | some e =>
      ([RecAction.deletePod k], some ("error deleting Pod " ++ k ++ ": " ++ e))
    | none =>
      match syn k with
      | some e =>
        ([RecAction.deletePod k, RecAction.waitSync k],
         some ("error waiting for Pod " ++ k ++ " to be synced: " ++ e))
      | none =>
        let r := restartLoop del syn ks
        (RecAction.deletePod k :: RecAction.waitSync k :: r.1, r.2)

/-- Embedding of `GaleraReconciler.restartPods`: read the bootstrap pod from
the persisted status (error when absent), resolve its index and agent client,
re-query its Galera state; if it is no longer safe to bootstrap, reset the
whole recovery record and persist (returning the patch outcome, not a hard
error); otherwise walk the ordered pod list deleting and resyncing each pod
in turn, and on full success set podsRestarted and persist. -/
def restartPods (env : RecoverEnv) (mdb : MariaDB) (rs : GaleraRecoveryStatus) :
    List RecAction × Except String Unit × GaleraRecoveryStatus :=
  match statusBootstrapPod mdb with
  | none =>
    ([], Except.error "Unable to restart Pods. Cluster has not been bootstrapped", rs)
  | some bp =>
    match podIndex bp with
    | none => ([], Except.error "error getting Pod index", rs)
    | some i =>
      match clientForIndex mdb.replicas i with
      | Except.error e => ([], Except.error ("error getting agent client: " ++ e), rs)
      | Except.ok _ =>
        match env.bootstrapPodState with
        | Except.error e =>
          ([RecAction.getState bp], Except.error ("error getting Galera state: " ++ e), rs)
        | Except.ok st =>
          if !st.safeToBootstrap then
            ([RecAction.getState bp, RecAction.patchStatus (recoveryRepr resetStatus)],
             if env.patchOk then Except.ok ()
             else Except.error "error patching recovery status", resetStatus)
          else
            let r := restartLoop env.del env.syn (restartKeys mdb.name mdb.replicas bp)
            match r.2 with
            | some e => (RecAction.getState bp :: r.1, Except.error e, rs)
            | none =>
              (RecAction.getState bp :: r.1 ++
                 [RecAction.patchStatus (recoveryRepr (setPodsRestarted rs true))],
               if env.patchOk then Except.ok ()
               else Except.error "error patching recovery status",
               setPodsRestarted rs true)

theorem restartLoop_all_ok (del syn : String → Option String) (keys : List String)
    (hdel : ∀ k ∈ keys, del k = none) (hsyn : ∀ k ∈ keys, syn k = none) :
    restartLoop del syn keys =
      (keys.flatMap (fun k => [RecAction.deletePod k, RecAction.waitSync k]), none) := by
  induction keys with
  | nil => simp [restartLoop]
  | cons k ks ih =>
      have hd := hdel k (List.mem_cons_self k ks)
      have hs := hsyn k (List.mem_cons_self k ks)
      simp only [restartLoop, hd, hs]
      rw [ih (fun q hq => hdel q (List.mem_cons_of_mem _ hq))
          (fun q hq => hsyn q (List.mem_cons_of_mem _ hq))]
      simp

theorem restartKeys_tail_eq (base bp : String) (l : List Nat) :
    l.filterMap (fun i => if podName base i = bp then none else some (podName base i)) =
      (l.filter (fun i => decide (podName base i ≠ bp))).map (podName base) := by
  induction l with
  | nil => rfl
  | cons i is ih =>
      by_cases h : podName base i = bp
      · simp [List.filterMap_cons, List.filter_cons, h, ih]
      · simp [List.filterMap_cons, List.filter_cons, h, ih]

/-- C2: with a recorded bootstrap pod whose state re-query reports safe, and
every delete and sync succeeding, the restart sequencer produces exactly the
sequential trace delete-then-sync per pod over the ordered key list — the
bootstrap pod first, then the pod of each remaining replica ordinal; the
ordinals of the tail are strictly ascending — followed by the persist of the
record with podsRestarted set. -/
theorem restartPods_order (env : RecoverEnv) (mdb : MariaDB)
    (rs : GaleraRecoveryStatus) (bp : String) (i : Nat) (st : GaleraState)
    (hbp : statusBootstrapPod mdb = some bp)
    (hidx : podIndex bp = some i) (hcl : i < mdb.replicas)
    (hst : env.bootstrapPodState = Except.ok st) (hsafe : st.safeToBootstrap = true)
    (hdel : ∀ p, env.del p = none) (hsyn : ∀ p, env.syn p = none) :
    (restartPods env mdb rs).1 =
      RecAction.getState bp ::
        ((restartKeys mdb.name mdb.replicas bp).flatMap
          (fun k => [RecAction.deletePod k, RecAction.waitSync k]) ++
         [RecAction.patchStatus (recoveryRepr (setPodsRestarted rs true))]) ∧
    (restartPods env mdb rs).2.2 = setPodsRestarted rs true ∧
    restartKeys mdb.name mdb.replicas bp =
      bp :: ((List.range mdb.replicas).filter
        (fun j => decide (podName mdb.name j ≠ bp))).map (podName mdb.name) ∧
    List.Pairwise (· < ·) ((List.range mdb.replicas).filter
      (fun j => decide (podName mdb.name j ≠ bp))) := by
  have hloop := restartLoop_all_ok env.del env.syn (restartKeys mdb.name mdb.replicas bp)
    (fun k _ => hdel k) (fun k _ => hsyn k)
  refine ⟨?_, ?_, ?_, ?_⟩
  · unfold restartPods
    rw [hbp]
    dsimp only
    rw [hidx]
    dsimp only
    rw [show clientForIndex mdb.replicas i = Except.ok () from
      by simp [clientForIndex, hcl]]
    dsimp only
    rw [hst]
    dsimp only
    rw [hsafe]
    simp only [Bool.not_true, Bool.false_eq_true, if_false]
    rw [hloop]
    simp
  · unfold restartPods
    rw [hbp]
    dsimp only
    rw [hidx]
    dsimp only
    rw [show clientForIndex mdb.replicas i = Except.ok () from
      by simp [clientForIndex, hcl]]
    dsimp only
    rw [hst]
    dsimp only
    rw [hsafe]
    simp only [Bool.not_true, Bool.false_eq_true, if_false]
    rw [hloop]
  · unfold restartKeys
    rw [restartKeys_tail_eq]
  · exact List.Pairwise.sublist (List.filter_sublist _)
      (List.pairwise_lt_range mdb.replicas)

/-- Example record with a committed bootstrap attempt on pod mariadb-1. -/
def exRsBoot : GaleraRecoveryStatus :=
  { state := [("mariadb-1", { uuid := "u1", seqno := 3, safeToBootstrap := true })],
    recovered := [],
    bootstrap := some { pod := some "mariadb-1", time := some 40 },
    podsRestarted := false }

/-- Example environment where every collaborator call succeeds and the
bootstrap pod reports itself safe. -/
def exEnvOk : RecoverEnv :=
  { fetch := fun _ => Except.ok { uuid := "u1", seqno := 3, safeToBootstrap := true },
    recover := fun _ => Except.ok { seqno := 3 },
    enable := fun _ => Except.ok (),
    bootstrapPodState := Except.ok { uuid := "u1", seqno := 3, safeToBootstrap := true },
    del := fun _ => none,
    syn := fun _ => none,
    patchOk := true,
    now := 50 }

/-- Example cluster of three replicas whose status records the bootstrap
attempt of `exRsBoot`. -/
def exMdbBoot : MariaDB :=
  { name := "mariadb", replicas := 3, clusterBootstrapTimeout := 1000,
    galeraRecovery := some exRsBoot }

/-- Witness for C2: three replicas with bootstrap pod mariadb-1; the sequencer
walks mariadb-1, mariadb-0, mariadb-2, deleting then syncing each in turn, and
persists the restarted record. -/
theorem restartPods_order_witness :
    (restartPods exEnvOk exMdbBoot exRsBoot).1 =
      RecAction.getState "mariadb-1" ::
        ((restartKeys "mariadb" 3 "mariadb-1").flatMap
          (fun k => [RecAction.deletePod k, RecAction.waitSync k]) ++
         [RecAction.patchStatus (recoveryRepr (setPodsRestarted exRsBoot true))]) ∧
    restartKeys "mariadb" 3 "mariadb-1" = ["mariadb-1", "mariadb-0", "mariadb-2"] := by
  have h := restartPods_order exEnvOk exMdbBoot exRsBoot "mariadb-1" 1
    { uuid := "u1", seqno := 3, safeToBootstrap := true }
    rfl (by decide) (by decide) rfl rfl (fun _ => rfl) (fun _ => rfl)
  exact ⟨h.1, by decide⟩

/-- C3: when the recorded bootstrap pod no longer reports safeToBootstrap at
the start of the restart phase, the whole recovery record is reset and the
cleared record persisted, no pod is deleted or resynced, and the phase
returns success provided the reset patch succeeds. -/
theorem restartPods_unsafe_resets (env : RecoverEnv) (mdb : MariaDB)
    (rs : GaleraRecoveryStatus) (bp : String) (i : Nat) (st : GaleraState)
    (hbp : statusBootstrapPod mdb = some bp)
    (hidx : podIndex bp = some i) (hcl : i < mdb.replicas)
    (hst : env.bootstrapPodState = Except.ok st)
    (hnosafe : st.safeToBootstrap = false) (hpatch : env.patchOk = true) :
    (restartPods env mdb rs).1 = [RecAction.getState bp, RecAction.patchStatus none] ∧
    (restartPods env mdb rs).2.1 = Except.ok () ∧
    (restartPods env mdb rs).2.2 = resetStatus ∧
    ∀ p, RecAction.deletePod p ∉ (restartPods env mdb rs).1 := by
  have hmain : restartPods env mdb rs =
      ([RecAction.getState bp, RecAction.patchStatus none], Except.ok (), resetStatus) := by
    unfold restartPods
    rw [hbp]
    dsimp only
    rw [hidx]
    dsimp only
    rw [show clientForIndex mdb.replicas i = Except.ok () from
      by simp [clientForIndex, hcl]]
    dsimp only
    rw [hst]
    dsimp only
    rw [hnosafe, hpatch]
    rfl
  refine ⟨by rw [hmain], by rw [hmain], by rw [hmain], ?_⟩
  intro p
  rw [hmain]
  simp

/-- Example environment identical to `exEnvOk` except that the bootstrap pod
re-query reports the pod no longer safe to bootstrap. -/
def exEnvNoSafe : RecoverEnv :=
  { exEnvOk with
    bootstrapPodState := Except.ok { uuid := "u1", seqno := 3, safeToBootstrap := false } }

/-- Witness for C3: the bootstrap pod lost its safe flag; the phase emits only
the state re-query and the reset persist, succeeds, and resets the record. -/
theorem restartPods_unsafe_resets_witness :
    (restartPods exEnvNoSafe exMdbBoot exRsBoot).1 =
      [RecAction.getState "mariadb-1", RecAction.patchStatus none] ∧
    (restartPods exEnvNoSafe exMdbBoot exRsBoot).2.1 = Except.ok () ∧
    (restartPods exEnvNoSafe exMdbBoot exRsBoot).2.2 = resetStatus ∧
    RecAction.deletePod "mariadb-0" ∉ (restartPods exEnvNoSafe exMdbBoot exRsBoot).1 := by
  have h := restartPods_unsafe_resets exEnvNoSafe exMdbBoot exRsBoot "mariadb-1" 1
    { uuid := "u1", seqno := 3, safeToBootstrap := false }
    rfl (by decide) (by decide) rfl rfl rfl
  exact ⟨h.1, h.2.1, h.2.2.1, h.2.2.2 "mariadb-0"⟩

/-- Embedding of `GaleraReconciler.recoverCluster`: collect Galera state,
persist unconditionally (both outcomes combined as a multierror — partial
state survives a failed collection), then try the selector; with a source,
run the bootstrap executor and persist; with no source, run the recovery-mode
driver, persist (again combining with the patch outcome), re-run the
selector and bootstrap.  The selector modelled from the spec signals
no-source as `none`; at the second selection the original returns the
selector error, embedded here as the error return with no agent call. -/
def recoverCluster (env : RecoverEnv) (pods : List String) (mdb : MariaDB)
    (rs : GaleraRecoveryStatus) :
    List RecAction × Except String Unit × GaleraRecoveryStatus :=
  let s := getGaleraState env.fetch pods rs
  let patch1 := RecAction.patchStatus (recoveryRepr s.2.2)
  let ePatch : Option String := if env.patchOk then none else some "patch failed"
  match combineErr s.2.1 ePatch with
  | some e =>
    (s.1 ++ [patch1], Except.error ("error getting state: " ++ e), s.2.2)
  | none =>
    match bootstrapSource s.2.2.state s.2.2.recovered with
    | some src =>
      let b := bootstrapExec mdb.replicas env.enable env.now src.pod s.2.2
      match b.2.1 with
      | Except.error e =>
        (s.1 ++ patch1 :: b.1, Except.error ("error bootstrapping: " ++ e), b.2.2)
      | Except.ok _ =>
        (s.1 ++ patch1 :: (b.1 ++ [RecAction.patchStatus (recoveryRepr b.2.2)]),
         if env.patchOk then Except.ok ()
         else Except.error "error patching recovery status", b.2.2)
    | none =>
      let rcv := recoverGaleraState env.recover pods s.2.2
      let patch2 := RecAction.patchStatus (recoveryRepr rcv.2.2)
      match combineErr rcv.2.1 ePatch with
      | some e =>
        (s.1 ++ patch1 :: (rcv.1 ++ [patch2]),
         Except.error ("error performing recovery: " ++ e), rcv.2.2)
      | none =>
        match bootstrapSource rcv.2.2.state rcv.2.2.recovered with
        | none =>
          (s.1 ++ patch1 :: (rcv.1 ++ [patch2]),
           Except.error "error getting bootstrap source", rcv.2.2)
        | some src =>
          let b := bootstrapExec mdb.replicas env.enable env.now src.pod rcv.2.2
          match b.2.1 with
          | Except.error e =>
            (s.1 ++ patch1 :: (rcv.1 ++ patch2 :: b.1),
             Except.error ("error bootstrapping: " ++ e), b.2.2)
          | Except.ok _ =>
            (s.1 ++ patch1 :: (rcv.1 ++ patch2 ::
               (b.1 ++ [RecAction.patchStatus (recoveryRepr b.2.2)])),
             if env.patchOk then Except.ok ()
             else Except.error "error patching recovery status", b.2.2)

theorem alookup_nil {α : Type} (k : String) : alookup k ([] : List (String × α)) = none :=
  rfl

theorem recoveryRepr_some_of_state {rs : GaleraRecoveryStatus} {p : String}
    {st : GaleraState} (h : stateOf rs p = some st) : recoveryRepr rs = some rs := by
  unfold recoveryRepr
  rw [if_neg]
  intro hz
  rw [hz] at h
  unfold stateOf at h
  rw [show (default : GaleraRecoveryStatus).state = [] from rfl, alookup_nil] at h
  exact Option.noConfusion h

/-- C6: when at least one state-fetch task fails while another pod's task
succeeds, the successful pod's NodeState is still recorded in the returned
record and persisted to the status store (the unconditional patch after the
collection carries it), even though the call as a whole returns an error. -/
theorem recoverCluster_partial_persist (env : RecoverEnv) (pods : List String)
    (mdb : MariaDB) (rs : GaleraRecoveryStatus) (p q : String)
    (st : GaleraState) (e : String)
    (hp : p ∈ pods) (hnewp : stateOf rs p = none)
    (hfp : env.fetch p = Except.ok st)
    (hq : q ∈ pods) (hnewq : stateOf rs q = none)
    (hfq : env.fetch q = Except.error e) :
    (∃ err, (recoverCluster env pods mdb rs).2.1 = Except.error err) ∧
    stateOf (recoverCluster env pods mdb rs).2.2 p = some st ∧
    RecAction.patchStatus (some (recoverCluster env pods mdb rs).2.2) ∈
      (recoverCluster env pods mdb rs).1 := by
  obtain ⟨e1, he1⟩ : ∃ e1, (getGaleraState env.fetch pods rs).2.1 = some e1 :=
    Option.isSome_iff_exists.1 (getGaleraState_err_of_fail env.fetch pods rs q e hq hnewq hfq)
  have hrec : stateOf (getGaleraState env.fetch pods rs).2.2 p = some st :=
    getGaleraState_records_success env.fetch pods rs p st hp hnewp hfp
  have hcomb : ∃ ec, combineErr (getGaleraState env.fetch pods rs).2.1
      (if env.patchOk then none else some "patch failed") = some ec := by
    rw [he1]
    cases env.patchOk <;> simp [combineErr]
  obtain ⟨ec, hec⟩ := hcomb
  have hmain : recoverCluster env pods mdb rs =
      ((getGaleraState env.fetch pods rs).1 ++
         [RecAction.patchStatus (recoveryRepr (getGaleraState env.fetch pods rs).2.2)],
       Except.error ("error getting state: " ++ ec),
       (getGaleraState env.fetch pods rs).2.2) := by
    unfold recoverCluster
    dsimp only
    rw [hec]
  rw [hmain]
  refine ⟨⟨"error getting state: " ++ ec, rfl⟩, hrec, ?_⟩
  rw [recoveryRepr_some_of_state hrec]
  simp

/-- Witness for C6: of three pods, mariadb-0 and mariadb-2 succeed while
mariadb-1 fails; the successful state of mariadb-0 is recorded and the patch
carrying the partial record appears in the trace although the call errors. -/
theorem recoverCluster_partial_persist_witness :
    (∃ err, (recoverCluster { exEnvOk with fetch := exFetchOneFail }
      ["mariadb-0", "mariadb-1", "mariadb-2"] exMdbBoot default).2.1 =
        Except.error err) ∧
    stateOf (recoverCluster { exEnvOk with fetch := exFetchOneFail }
      ["mariadb-0", "mariadb-1", "mariadb-2"] exMdbBoot default).2.2 "mariadb-0" =
      some { uuid := "u1", seqno := 5, safeToBootstrap := false } ∧
    RecAction.patchStatus (some (recoverCluster { exEnvOk with fetch := exFetchOneFail }
      ["mariadb-0", "mariadb-1", "mariadb-2"] exMdbBoot default).2.2) ∈
      (recoverCluster { exEnvOk with fetch := exFetchOneFail }
        ["mariadb-0", "mariadb-1", "mariadb-2"] exMdbBoot default).1 :=
  recoverCluster_partial_persist { exEnvOk with fetch := exFetchOneFail }
    ["mariadb-0", "mariadb-1", "mariadb-2"] exMdbBoot default
    "mariadb-0" "mariadb-1" { uuid := "u1", seqno := 5, safeToBootstrap := false }
    "error getting Galera state for Pod mariadb-1: connection refused"
    (by decide) rfl rfl (by decide) rfl rfl

/-- Phase pipeline of `reconcileRecovery` after the timeout check: when no
bootstrap attempt is recorded, run the cluster-recovery pipeline (returning
its wrapped error on failure); then, when pods are not yet all restarted, run
the restart sequencer on the status as last persisted (each patch writes the
record back into the MariaDB status, which `restartPods` re-reads). -/
def reconcileRecoveryPhases (env : RecoverEnv) (pods : List String) (mdb : MariaDB)
    (rs : GaleraRecoveryStatus) :
    List RecAction × Except String Unit × GaleraRecoveryStatus :=
  if isBootstrapping rs then
    if rs.podsRestarted then ([], Except.ok (), rs)
    else
      let rp := restartPods env mdb rs
      match rp.2.1 with
      | Except.error e =>
        (rp.1, Except.error ("error restarting Pods: " ++ e), rp.2.2)
      | Except.ok _ => (rp.1, Except.ok (), rp.2.2)
  else
    let rc := recoverCluster env pods mdb rs
    match rc.2.1 with
    | Except.error e =>
      (rc.1, Except.error ("error recovering cluster: " ++ e), rc.2.2)
    | Except.ok _ =>
      if rc.2.2.podsRestarted then (rc.1, Except.ok (), rc.2.2)
      else
        let rp := restartPods env { mdb with galeraRecovery := recoveryRepr rc.2.2 } rc.2.2
        match rp.2.1 with
        | Except.error e =>
          (rc.1 ++ rp.1, Except.error ("error restarting Pods: " ++ e), rp.2.2)
        | Except.ok _ => (rc.1 ++ rp.1, Except.ok (), rp.2.2)

/-- Embedding of `GaleraReconciler.reconcileRecovery` (the orchestrator entry
point): read the persisted record; if a recorded bootstrap attempt is older
than the configured bootstrap timeout, reset the whole record and persist the
cleared (nil) representation before any phase runs, then drive the phase
pipeline on the cleared record; otherwise drive the pipeline on the record as
read. -/
def reconcileRecovery (env : RecoverEnv) (pods : List String) (mdb : MariaDB) :
    List RecAction × Except String Unit × GaleraRecoveryStatus :=
  let rs0 := mdb.galeraRecovery.getD default
  if bootstrapTimeout env.now mdb.clusterBootstrapTimeout rs0 then
    if env.patchOk then
      let r := reconcileRecoveryPhases env pods
        { mdb with galeraRecovery := none } resetStatus
      (RecAction.patchStatus none :: r.1, r.2.1, r.2.2)
    else
      ([RecAction.patchStatus none], Except.error "error resetting recovery", resetStatus)
  else reconcileRecoveryPhases env pods mdb rs0

/-- C4: with a recorded bootstrap attempt older than the configured timeout,
the orchestrator clears the record and persists the cleared representation
(nil — by the representation invariant, exactly the record with all four
fields at zero) as its first action, before any phase of the pipeline runs;
the pipeline then proceeds from the cleared record. -/
theorem reconcileRecovery_timeout_resets_first (env : RecoverEnv)
    (pods : List String) (mdb : MariaDB)
    (ht : bootstrapTimeout env.now mdb.clusterBootstrapTimeout
      (mdb.galeraRecovery.getD default) = true)
    (hpatch : env.patchOk = true) :
    (reconcileRecovery env pods mdb).1 =
      RecAction.patchStatus none ::
        (reconcileRecoveryPhases env pods
          { mdb with galeraRecovery := none } resetStatus).1 ∧
    recoveryRepr resetStatus = none ∧
    resetStatus.state = [] ∧ resetStatus.recovered = [] ∧
    resetStatus.bootstrap = none ∧ resetStatus.podsRestarted = false := by
  refine ⟨?_, rfl, rfl, rfl, rfl, rfl⟩
  unfold reconcileRecovery
  dsimp only
  rw [ht, hpatch]
  simp

/-- Example record with a stale bootstrap attempt started at time 0. -/
def exRsStale : GaleraRecoveryStatus :=
  { state := [("mariadb-0", { uuid := "u1", seqno := 3, safeToBootstrap := true })],
    recovered := [("mariadb-0", { seqno := 3 })],
    bootstrap := some { pod := some "mariadb-0", time := some 0 },
    podsRestarted := true }

/-- Example cluster whose bootstrap attempt (startedAt 0) is older than the
configured timeout 30 at clock 50. -/
def exMdbStale : MariaDB :=
  { name := "mariadb", replicas := 1, clusterBootstrapTimeout := 30,
    galeraRecovery := some exRsStale }

/-- Witness for C4: at clock 50 with timeout 30 and startedAt 0, the first
action of the invocation is the persist of the cleared (nil) record. -/
theorem reconcileRecovery_timeout_resets_first_witness :
    (reconcileRecovery exEnvOk ["mariadb-0"] exMdbStale).1 =
      RecAction.patchStatus none ::
        (reconcileRecoveryPhases exEnvOk ["mariadb-0"]
          { exMdbStale with galeraRecovery := none } resetStatus).1 ∧
    recoveryRepr resetStatus = none :=
  have h := reconcileRecovery_timeout_resets_first exEnvOk ["mariadb-0"] exMdbStale
    (by decide) rfl
  ⟨h.1, h.2.1⟩

/-- Example record with pods already restarted but no bootstrap attempt
recorded (the configuration of the idempotence claim). -/
def exRsRestartedNoBoot : GaleraRecoveryStatus :=
  { state := [], recovered := [], bootstrap := none, podsRestarted := true }

/-- Example cluster persisting `exRsRestartedNoBoot`. -/
def exMdbRestartedNoBoot : MariaDB :=
  { name := "mariadb", replicas := 1, clusterBootstrapTimeout := 1000,
    galeraRecovery := some exRsRestartedNoBoot }

/-- Counterexample for C7: on a record with podsRestarted true and no
bootstrap attempt, the orchestrator is not a no-op — because no attempt is
recorded, the cluster-recovery pipeline runs: the pod agent is queried, the
status is patched, and the returned record differs from the input record. -/
theorem reconcileRecovery_restarted_no_bootstrap_not_noop :
    RecAction.getState "mariadb-0" ∈
      (reconcileRecovery exEnvOk ["mariadb-0"] exMdbRestartedNoBoot).1 ∧
    (reconcileRecovery exEnvOk ["mariadb-0"] exMdbRestartedNoBoot).2.2 ≠
      exRsRestartedNoBoot := by
  constructor
  · decide
  · decide

/-- C7 amended: invoking the orchestrator on a record with podsRestarted true
and a recorded bootstrap attempt that has not exceeded the bootstrap timeout
is a no-op: the record is returned unchanged, the result is success, and no
phase-collaborator calls are made (empty action trace — no agent query, no
restart, no status patch).  With no bootstrap attempt recorded the
cluster-recovery pipeline still runs (see the counterexample). -/
theorem reconcileRecovery_noop_when_restarted_and_bootstrapped (env : RecoverEnv)
    (pods : List String) (mdb : MariaDB) (rs : GaleraRecoveryStatus)
    (hrec : mdb.galeraRecovery = some rs) (hpr : rs.podsRestarted = true)
    (hbs : isBootstrapping rs = true)
    (ht : bootstrapTimeout env.now mdb.clusterBootstrapTimeout rs = false) :
    reconcileRecovery env pods mdb = ([], Except.ok (), rs) := by
  unfold reconcileRecovery
  rw [hrec]
  simp only [Option.getD_some]
  rw [ht]
  simp only [Bool.false_eq_true, if_false]
  unfold reconcileRecoveryPhases
  rw [hbs, hpr]
  simp

/-- Example cluster persisting a restarted record that still carries a live
bootstrap attempt on pod mariadb-1. -/
def exMdbBootRestarted : MariaDB :=
  { name := "mariadb", replicas := 3, clusterBootstrapTimeout := 1000,
    galeraRecovery := some (setPodsRestarted exRsBoot true) }

/-- Witness for C7 amended: a restarted record with a live (non-timed-out)
bootstrap attempt is returned unchanged with an empty trace. -/
theorem reconcileRecovery_noop_witness :
    reconcileRecovery exEnvOk ["mariadb-0", "mariadb-1", "mariadb-2"] exMdbBootRestarted =
      ([], Except.ok (), setPodsRestarted exRsBoot true) :=
  reconcileRecovery_noop_when_restarted_and_bootstrapped exEnvOk
    ["mariadb-0", "mariadb-1", "mariadb-2"] exMdbBootRestarted
    (setPodsRestarted exRsBoot true) rfl rfl rfl (by decide)

end Galera
